import Mathlib

set_option maxRecDepth 100000

/-!
Verification development for the SarthiR-BOT repository (UDCPR RAG chatbot).

The development shallowly embeds the decision engine of the chatbot:
the relevance-classifier policy of src/chat_handler.py and
src/chatbot_web.py, the web-search fallback of src/web_search.py, the
prompt assembly and context formatting of src/api_server.py and
src/udcpr_chatbot_streamlit.py, and the conversation-history truncation
shared by the call sites.  Python strings become Lean String, Python
float scores become rationals, Python lists become Lean List, and the
network is an explicit oracle parameter.  Every definition is
executable, so the theorems below can be evaluated on concrete inputs.
-/

/-- Models Python str.lower() (ASCII case folding, applied characterwise),
used because every phrase test in the source lowercases the query first. -/
def lowerStr (s : String) : String := ⟨s.data.map Char.toLower⟩

/-- Auxiliary substring test on character lists: true when the needle occurs
contiguously inside the haystack. -/
def listHasSub (needle : List Char) : List Char → Bool
  | [] => needle.isEmpty
  | c :: cs => needle.isPrefixOf (c :: cs) || listHasSub needle cs

/-- Models the Python expression needle in hay for strings: contiguous
substring containment. -/
def containsSub (needle hay : String) : Bool := listHasSub needle.data hay.data

/-- Models the Python idiom any(p in q.lower() for p in phrases) that drives
every keyword check of the relevance classifier. -/
def anyContains (phrases : List String) (q : String) : Bool :=
  phrases.any (fun p => containsSub p (lowerStr q))

/-- One retrieved vector-index match: similarity score and the metadata
fields (text, source, page) read by the context formatters. -/
structure RetrievedMatch where
  score : ℚ
  text : String
  source : String
  page : String

/-- One chat turn, as the role/content records passed to the model. -/
structure ChatMessage where
  role : String
  content : String
deriving DecidableEq

/-- History bound shared by api_server.py, chatbot_web.py, chat_handler.py
and udcpr_chatbot_streamlit.py (each sets MAX_HISTORY_MESSAGES = 10). -/
def MAX_HISTORY_MESSAGES : Nat := 10

namespace ChatHandler

/-- Greeting patterns of src/chat_handler.py line 81. -/
def greeting_patterns : List String :=
  ["hello", "hi", "hey", "greetings", "good morning", "good afternoon",
   "good evening", "how are you", "what's up", "howdy"]

/-- In-domain keywords of src/chat_handler.py line 86. -/
def udcpr_keywords : List String :=
  ["udcpr", "regulation", "building", "development", "control", "promotion",
   "maharashtra", "construction", "zoning", "fsi", "floor space", "height",
   "setback", "plot", "land", "urban", "planning", "architect"]

/-- External-information keywords of src/chat_handler.py line 91
(the source list repeats "latest"; the repetition is kept). -/
def external_info_keywords : List String :=
  ["recent", "latest", "new", "update", "amendment", "change",
   "modified", "revision", "current", "2023", "2024", "added", "removed",
   "most", "latest", "changes", "amendments", "notifications"]

/-- Force-web-search phrases of src/chat_handler.py line 96. -/
def force_web_search_phrases : List String :=
  ["most recent", "latest update", "new rules", "recent changes",
   "latest amendment", "current version", "updated regulation",
   "what are the most recent", "what are the latest", "recent notification"]

/-- Models is_greeting of src/chat_handler.py line 83. -/
def is_greeting (q : String) : Bool := anyContains greeting_patterns q

/-- Models is_udcpr_related of src/chat_handler.py line 102. -/
def is_udcpr_related (q : String) : Bool := anyContains udcpr_keywords q

/-- Models needs_external_info of src/chat_handler.py line 103. -/
def needs_external_info (q : String) : Bool := anyContains external_info_keywords q

/-- Models force_web_search of src/chat_handler.py line 104. -/
def force_web_search (q : String) : Bool := anyContains force_web_search_phrases q

/-- Models the has_relevant_results decision of src/chat_handler.py
lines 106 to 122: force phrases first, then the greeting / short-query /
in-domain short-circuit, then the 0.75 score-threshold scan.  The result
true means the retrieved context is judged sufficient (web search skipped). -/
def has_relevant_results (prompt : String) (results : List RetrievedMatch) : Bool :=
  if force_web_search prompt then false
  else if is_greeting prompt || decide (prompt.trim.length < 10) ||
      (is_udcpr_related prompt && !needs_external_info prompt && !results.isEmpty) then true
  else results.any (fun r => decide ((0.75 : ℚ) < r.score))

end ChatHandler

namespace ChatbotWeb

/-- Greeting patterns of src/chatbot_web.py line 248 (identical to the
chat_handler.py list). -/
def greeting_patterns : List String :=
  ["hello", "hi", "hey", "greetings", "good morning", "good afternoon",
   "good evening", "how are you", "what's up", "howdy"]

/-- In-domain keywords of src/chatbot_web.py line 253 (identical to the
chat_handler.py list). -/
def udcpr_keywords : List String :=
  ["udcpr", "regulation", "building", "development", "control", "promotion",
   "maharashtra", "construction", "zoning", "fsi", "floor space", "height",
   "setback", "plot", "land", "urban", "planning", "architect"]

/-- External-information keywords of src/chatbot_web.py line 258
(the source list repeats "latest"; the repetition is kept). -/
def external_info_keywords : List String :=
  ["recent", "latest", "new", "update", "amendment", "change",
   "modified", "revision", "current", "2023", "2024", "2025", "added", "removed",
   "most", "latest", "changes", "amendments", "notifications", "news",
   "today", "month", "year", "week", "information", "outside", "weather",
   "temperature", "forecast", "rain", "snow", "wind", "humidity", "climate",
   "stock", "price", "market", "company", "business", "economy", "financial",
   "sports", "game", "match", "score", "team", "player", "tournament",
   "movie", "film", "show", "series", "actor", "actress", "director",
   "music", "song", "album", "artist", "band", "concert", "release",
   "politics", "election", "president", "minister", "government", "policy",
   "health", "disease", "virus", "pandemic", "vaccine", "treatment",
   "technology", "device", "gadget", "app", "software", "hardware",
   "travel", "flight", "hotel", "destination", "vacation", "tourism"]

/-- Force-web-search phrases of src/chatbot_web.py line 273. -/
def force_web_search_phrases : List String :=
  ["most recent", "latest update", "new rules", "recent changes",
   "latest amendment", "current version", "updated regulation",
   "what are the most recent", "what are the latest", "recent notification",
   "search the web", "look online", "find online", "internet", "web search",
   "outside the document", "external information", "online information",
   "what is the temperature", "how is the weather", "what's the weather",
   "current temperature", "weather forecast", "what is the price of",
   "how much is", "what happened", "who won", "when is", "where is",
   "tell me about", "find information", "search for", "look up"]

/-- Location keywords of src/chatbot_web.py line 286. -/
def location_keywords : List String :=
  ["usa", "america", "us", "united states", "texas", "california", "new york",
   "florida", "chicago", "los angeles", "houston", "phoenix", "philadelphia",
   "san antonio", "san diego", "dallas", "austin", "san jose", "india", "delhi",
   "mumbai", "bangalore", "hyderabad", "chennai", "kolkata", "europe", "asia",
   "africa", "australia", "canada", "mexico", "brazil", "china", "japan",
   "russia", "uk", "france", "germany", "italy", "spain"]

/-- Question starters of src/chatbot_web.py line 307. -/
def question_starters : List String :=
  ["what is", "how is", "when is", "where is", "who is", "why is",
   "can you tell me", "do you know", "i want to know", "tell me about"]

/-- Weather terms of src/chatbot_web.py line 315. -/
def weather_terms : List String :=
  ["temperature", "weather", "forecast", "rain", "snow", "wind", "humidity", "climate",
   "hot", "cold", "warm", "cool", "degrees", "celsius", "fahrenheit"]

/-- Time indicators of src/chatbot_web.py line 321. -/
def time_indicators : List String :=
  ["now", "today", "current", "latest", "recent", "right now", "at the moment",
   "currently", "presently", "this time", "this moment"]

/-- Models is_greeting of src/chatbot_web.py line 250. -/
def is_greeting (q : String) : Bool := anyContains greeting_patterns q

/-- Models is_udcpr_related of src/chatbot_web.py line 293. -/
def is_udcpr_related (q : String) : Bool := anyContains udcpr_keywords q

/-- Models needs_external_info of src/chatbot_web.py line 294. -/
def needs_external_info (q : String) : Bool := anyContains external_info_keywords q

/-- Models force_web_search of src/chatbot_web.py line 295. -/
def force_web_search (q : String) : Bool := anyContains force_web_search_phrases q

/-- Models contains_location of src/chatbot_web.py line 296. -/
def contains_location (q : String) : Bool := anyContains location_keywords q

/-- Models the temperature/weather substring test that opens both the
is_non_udcpr_query helper (line 302) and the decision chain (line 349)
of src/chatbot_web.py. -/
def weather_override (q : String) : Bool :=
  containsSub "temperature" (lowerStr q) || containsSub "weather" (lowerStr q)

/-- Models is_non_udcpr_query of src/chatbot_web.py lines 299 to 330:
weather terms, interrogative-plus-location, time indicators and bare
location mentions (the latter three only without in-domain keywords). -/
def is_non_udcpr_query (q : String) : Bool :=
  if weather_override q then true
  else if anyContains question_starters q && contains_location q && !is_udcpr_related q then true
  else if anyContains weather_terms q then true
  else if anyContains time_indicators q && !is_udcpr_related q then true
  else if contains_location q && !is_udcpr_related q then true
  else false

/-- Models the has_relevant_results decision of src/chatbot_web.py
lines 348 to 384: weather override, force phrases, non-domain query,
greeting / short query, external-info keywords, location mention, then
the 0.95 score-threshold scan.  The result true means the retrieved
context is judged sufficient (web search skipped). -/
def has_relevant_results (prompt : String) (results : List RetrievedMatch) : Bool :=
  if weather_override prompt then false
  else if force_web_search prompt then false
  else if is_non_udcpr_query prompt then false
  else if is_greeting prompt || decide (prompt.trim.length < 8) then true
  else if needs_external_info prompt then false
  else if contains_location prompt && !is_udcpr_related prompt then false
  else results.any (fun r => decide ((0.95 : ℚ) < r.score))

end ChatbotWeb

namespace WebSearch

/-- One web search result as built by src/web_search.py: title, link,
snippet and the engine or fallback source label. -/
structure WebResult where
  title : String
  link : String
  snippet : String
  source : String
deriving DecidableEq

/-- One raw item parsed out of a search-engine results page: the text of
the title element, the extracted link and the snippet text.  The HTML
fetching and parsing itself (requests + BeautifulSoup) is outside the
embedding; an item models what lines 146 to 167 of src/web_search.py
extract from one result container. -/
structure RawItem where
  title : String
  link : String
  snippet : String
deriving DecidableEq

/-- Outcome of the network during one perform_web_search call: for each
search engine that responded without raising, its name and the parsed raw
items in page order (an engine that raised or matched nothing contributes
nothing, exactly as its except branch does), and whether the direct Bing
request of line 202 of src/web_search.py succeeded. -/
structure NetOutcome where
  engines : List (String × List RawItem)
  directOk : Bool

/-- Models the query rewriting of src/web_search.py lines 38 to 58:
weather queries get a current qualifier when no currency word is present,
UDCPR-related queries get the UDCPR prefix, recency queries get the
latest-updates-Maharashtra qualifiers. -/
def rewriteQuery (q : String) : String :=
  let ql := lowerStr q
  if containsSub "temperature" ql || containsSub "weather" ql then
    if !containsSub "current" ql && !containsSub "now" ql && !containsSub "today" ql then
      "current " ++ q
    else q
  else if !containsSub "udcpr" ql &&
      anyContains ["regulation", "building", "development", "control", "promotion", "maharashtra"] q then
    "UDCPR " ++ q
  else if anyContains ["recent", "latest", "new", "update", "amendment"] q then
    if !containsSub "udcpr" ql then "latest UDCPR updates Maharashtra " ++ q
    else "latest " ++ q ++ " Maharashtra"
  else q

/-- Models one pass of the inner result loop of src/web_search.py lines
146 to 178 for one engine: keep the first num_results raw items, skip
items missing a title or a link, and skip items whose title is already in
the accumulated results (deduplication by title). -/
def addEngineResults (numResults : Nat) (acc : List WebResult)
    (engine : String × List RawItem) : List WebResult :=
  (engine.2.take numResults).foldl
    (fun acc item =>
      if item.title != "" && item.link != "" &&
          !(acc.any (fun r => r.title == item.title)) then
        acc ++ [⟨item.title, item.link, item.snippet, engine.1⟩]
      else acc)
    acc

/-- Models the engine loop of src/web_search.py lines 119 to 186: every
responding engine contributes, in priority order, with deduplication by
title across engines (the loop never breaks after a success). -/
def aggregateEngines (engines : List (String × List RawItem)) (numResults : Nat) :
    List WebResult :=
  engines.foldl (addEngineResults numResults) []

/-- Default weather conditions text of src/web_search.py line 224. -/
def defaultConditions : String := "partly cloudy with a chance of isolated thunderstorms"

/-- Builds the two canned weather results of src/web_search.py lines 270
to 284 from the detected location data. -/
def mkWeatherPair (location link specificLocation currentTemp conditions : String) :
    List WebResult :=
  [⟨"Current Weather in " ++ location, link,
    "The current temperature in " ++ specificLocation ++ " is approximately " ++
      currentTemp ++ " with conditions " ++ conditions ++
      ". Weather patterns can change throughout the day, with temperatures typically peaking in the afternoon. The National Weather Service provides real-time updates for precise conditions.",
    "Weather Fallback"⟩,
   ⟨"Weather Forecast for " ++ location, "https://www.accuweather.com/",
    "The forecast for " ++ specificLocation ++ " shows " ++ conditions ++
      " with temperatures around " ++ currentTemp ++
      ". Humidity levels are moderate to high, and wind speeds are generally light to moderate. For hourly predictions, precipitation chances, and extended outlooks, check reliable weather services.",
    "Weather Resources"⟩]

/-- Models the nested Texas-city branching of src/web_search.py lines
219 to 239: the (specific_location, current_temp, conditions) triple for
a query already known to mention texas. -/
def texasCityData (query : String) : String × String × String :=
  if containsSub "dallas" (lowerStr query) then
    ("Dallas", "85-95°F (29-35°C)", defaultConditions)
  else if containsSub "houston" (lowerStr query) then
    ("Houston", "80-95°F (27-35°C)", "humid with a chance of afternoon showers")
  else if containsSub "austin" (lowerStr query) then
    ("Austin", "82-97°F (28-36°C)", defaultConditions)
  else if containsSub "san antonio" (lowerStr query) then
    ("San Antonio", "83-98°F (28-37°C)", defaultConditions)
  else ("Texas", "75-95°F (24-35°C)", defaultConditions)

/-- Models the synthetic weather results of src/web_search.py lines 213
to 284: the location, link, temperature range and conditions follow the
location-detection branching on the (rewritten) query; named Texas cities
are recognised only inside the texas branch. -/
def weatherResults (query : String) : List WebResult :=
  if containsSub "texas" (lowerStr query) then
    mkWeatherPair "Texas, USA"
      "https://forecast.weather.gov/MapClick.php?site=EWX&textField1=31.25&textField2=-99.41"
      (texasCityData query).1 (texasCityData query).2.1 (texasCityData query).2.2
  else if containsSub "new york" (lowerStr query) then
    mkWeatherPair "New York, USA"
      "https://forecast.weather.gov/MapClick.php?site=OKX&textField1=40.71&textField2=-74.01"
      "New York City" "65-80°F (18-27°C)" "partly cloudy with occasional showers"
  else if containsSub "california" (lowerStr query) || containsSub "los angeles" (lowerStr query) then
    mkWeatherPair "Los Angeles, California, USA"
      "https://forecast.weather.gov/MapClick.php?site=LOX&textField1=34.05&textField2=-118.24"
      "Los Angeles" "70-85°F (21-29°C)" "sunny with morning fog near the coast"
  else if containsSub "chicago" (lowerStr query) then
    mkWeatherPair "Chicago, Illinois, USA"
      "https://forecast.weather.gov/MapClick.php?site=LOT&textField1=41.88&textField2=-87.63"
      "Chicago" "65-80°F (18-27°C)" "partly cloudy with a chance of showers"
  else if containsSub "florida" (lowerStr query) || containsSub "miami" (lowerStr query) then
    mkWeatherPair "Miami, Florida, USA"
      "https://forecast.weather.gov/MapClick.php?site=MFL&textField1=25.76&textField2=-80.19"
      "Miami" "80-90°F (27-32°C)" "partly cloudy with afternoon thunderstorms"
  else
    mkWeatherPair "the requested location" "https://www.weather.gov/"
      "the requested location" "varies by region" "varies by region"

/-- Official-website record of src/web_search.py lines 289 to 294, the
first entry of every synthetic UDCPR result set. -/
def udcprBaseResult : WebResult :=
  ⟨"Maharashtra Urban Development Department - Official Website",
     "https://urban.maharashtra.gov.in/",
     "The Unified Development Control and Promotion Regulations (UDCPR) were introduced in December 2020 to standardize building regulations across Maharashtra (excluding Mumbai, MIDC areas, and Special Planning Authorities). The UDCPR covers zoning regulations, building heights, setbacks, FSI calculations, parking requirements, and other development controls.",
     "UDCPR Fallback"⟩
/-- Subtopic record of src/web_search.py lines 297 to 324: exactly one of
the height, FSI, parking or general records, chosen by keyword. -/
def udcprDetailResult (query : String) : WebResult :=
  if containsSub "height" (lowerStr query) || containsSub "building height" (lowerStr query) then
      ⟨"UDCPR Building Height Regulations", "https://urban.maharashtra.gov.in/udcpr",
       "The UDCPR specifies that the maximum height of buildings depends on the road width. For roads wider than 30m, the maximum height can be up to 70m (approximately 23 floors). For roads between 15-30m, the height limit is 50m. For roads between 9-15m, the height limit is 24m. All buildings taller than 15m require fire safety clearance.",
       "UDCPR Height Regulations"⟩
    else if containsSub "fsi" (lowerStr query) || containsSub "floor space" (lowerStr query) || containsSub "far" (lowerStr query) then
      ⟨"UDCPR Floor Space Index (FSI) Regulations", "https://urban.maharashtra.gov.in/udcpr",
       "The basic FSI in residential zones ranges from 1.1 to 1.5 depending on the city category. Premium FSI can be purchased up to a maximum of 0.5. For commercial zones, the basic FSI ranges from 1.5 to 2.0. Transit-Oriented Development zones get an additional 0.5 FSI. Educational, medical, and public service buildings receive an additional 0.3 FSI.",
       "UDCPR FSI Regulations"⟩
    else if containsSub "parking" (lowerStr query) then
      ⟨"UDCPR Parking Requirements", "https://urban.maharashtra.gov.in/udcpr",
       "For residential buildings, 1 parking space is required per apartment up to 100 sq.m. For larger apartments, 2 parking spaces are required. Commercial buildings require 1 parking space per 80 sq.m of built-up area. Additional visitor parking of 10% is mandatory for all developments with more than 10 units. Mechanical parking systems are permitted to maximize space utilization.",
       "UDCPR Parking Regulations"⟩
    else
      ⟨"Unified Development Control and Promotion Regulations (UDCPR)",
       "https://urban.maharashtra.gov.in/udcpr",
       "The UDCPR covers all aspects of urban development including land use zoning, plot sizes, road widths, open spaces, amenities, special regulations for certain buildings, environmental considerations, and fire safety norms. It aims to create a uniform set of regulations across Maharashtra while allowing for local variations through special provisions.",
       "UDCPR General Information"⟩
/-- Recent-amendments record of src/web_search.py lines 327 to 333, added
only for recency queries. -/
def udcprRecentResults (query : String) : List WebResult :=
  if containsSub "latest" (lowerStr query) || containsSub "recent" (lowerStr query) ||
      containsSub "update" (lowerStr query) || containsSub "new" (lowerStr query) then
      [⟨"Recent UDCPR Amendments and Updates",
        "https://urban.maharashtra.gov.in/site/notification",
        "Recent amendments to the UDCPR include: 1) Increased FSI for redevelopment projects from 1.5 to 1.8 in certain urban areas, 2) Relaxation in side margins for narrow plots less than 9m wide, 3) New provisions for electric vehicle charging infrastructure requiring 20% of parking spaces to be EV-ready, 4) Green building incentives offering 5-10% additional FSI for buildings achieving gold or platinum green certification.",
        "UDCPR Recent Updates"⟩]
    else []
/-- Models the synthetic UDCPR results of src/web_search.py lines 287 to
333: the official-website record, then exactly one subtopic record and,
for recency queries, the recent-amendments record. -/
def udcprResults (query : String) : List WebResult :=
  udcprBaseResult :: udcprDetailResult query :: udcprRecentResults query

/-- General fallback result of src/web_search.py lines 336 to 341. -/
def generalFallbackResult : WebResult :=
  ⟨"Maharashtra Urban Development Department", "https://urban.maharashtra.gov.in/",
   "The Maharashtra Urban Development Department oversees urban planning, infrastructure development, and building regulations across the state. It implements the Unified Development Control and Promotion Regulations (UDCPR) which standardize building norms across municipalities. The department also manages town planning schemes, urban renewal projects, and smart city initiatives.",
   "Fallback"⟩

/-- Fallback result built when the direct request raises,
src/web_search.py lines 344 to 350. -/
def directFailResult : WebResult :=
  ⟨"Maharashtra Urban Development Department", "https://urban.maharashtra.gov.in/",
   "Official website of Maharashtra Urban Development Department where you can find the latest UDCPR updates and notifications.",
   "Error Fallback"⟩

/-- Models the always-taken fallback section of src/web_search.py lines
188 to 350, which runs on the rewritten query: when the direct request
raises, the generic error record; otherwise the weather, UDCPR or general
synthetic record set. -/
def fallbackResults (query : String) (directOk : Bool) : List WebResult :=
  if directOk then
    if containsSub "temperature" (lowerStr query) || containsSub "weather" (lowerStr query) then
      weatherResults query
    else if containsSub "udcpr" (lowerStr query) || containsSub "maharashtra" (lowerStr query) ||
        containsSub "urban development" (lowerStr query) ||
        containsSub "building regulations" (lowerStr query) then
      udcprResults query
    else [generalFallbackResult]
  else [directFailResult]

/-- Models perform_web_search of src/web_search.py lines 25 to 361: the
query is rewritten, the engine loop accumulates deduplicated results, and
the fallback section then rebinds the results variable unconditionally
(the source comments at lines 93 to 95 and 188 to 189 state that the
fallback runs regardless of scraping success), so the accumulated engine
results are discarded on every path. -/
def perform_web_search (q : String) (numResults : Nat) (net : NetOutcome) :
    List WebResult :=
  let query := rewriteQuery q
  let results := aggregateEngines net.engines numResults
  let results := fallbackResults query net.directOk
  results

/-- Models format_search_results_for_context of src/web_search.py lines
364 to 415: the UDCPR-or-general heading, the concatenated titles and
snippets, the instruction block, and the UDCPR-specific closing note. -/
def format_search_results_for_context (results : List WebResult) : String :=
  if results.isEmpty then "No relevant information found from web search."
  else
    let isUdcprRelated := results.any (fun r =>
      containsSub "udcpr" (lowerStr r.title) || containsSub "udcpr" (lowerStr r.snippet) ||
      containsSub "maharashtra" (lowerStr r.title) || containsSub "maharashtra" (lowerStr r.snippet) ||
      containsSub "urban development" (lowerStr r.title) ||
      containsSub "urban development" (lowerStr r.snippet))
    let context :=
      if isUdcprRelated then "Information about UDCPR updates and regulations:\n\n"
      else "Information from web search:\n\n"
    let combinedInfo := results.foldl
      (fun acc r => acc ++ r.title ++ ":\n" ++ r.snippet ++ "\n\n") ""
    let context := context ++ combinedInfo
    let context := context ++ "\nInstructions for using web search results:\n" ++
      "1. Use the above information to answer the user's question directly and completely.\n" ++
      "2. DO NOT mention sources or cite websites in your response.\n" ++
      "3. Present the information as factual knowledge, not as something you found from a search.\n" ++
      "4. If the search results contain real-time information like weather, prices, or current events, include this in your answer.\n" ++
      "5. If the information doesn't fully answer the question, acknowledge this limitation but still provide what you know.\n"
    if isUdcprRelated then
      context ++ "\nIMPORTANT: Focus on providing the actual regulations and updates about UDCPR. " ++
        "Present this information directly as facts without mentioning sources.\n"
    else context

end WebSearch

namespace ApiServer

/-- One entry of the sources list built by format_context_from_results in
src/api_server.py lines 146 to 150. -/
structure SourceRef where
  source : String
  page : String
  score : ℚ

/-- Return value of format_context_from_results in src/api_server.py: the
function returns a bare string at line 133 (empty result list) and a
(context, sources) pair at lines 153 and 155 otherwise.  The two Python
return shapes are modelled as the two constructors. -/
inductive ContextResult where
  | bare (s : String)
  | pair (context : String) (sources : List SourceRef)

/-- Matches kept by the score-and-text filter of src/api_server.py line
144: non-empty text and score above 0.3. -/
def keptMatches (results : List RetrievedMatch) : List RetrievedMatch :=
  results.filter (fun r => r.text != "" && decide ((0.3 : ℚ) < r.score))

/-- Context lines built at src/api_server.py line 145 from the kept matches. -/
def contextParts (results : List RetrievedMatch) : List String :=
  (keptMatches results).map (fun r =>
    "[Source: " ++ r.source ++ ", Page: " ++ r.page ++ "]\n" ++ r.text ++ "\n")

/-- Sources list built at src/api_server.py lines 146 to 150 from the kept matches. -/
def sourceRefs (results : List RetrievedMatch) : List SourceRef :=
  (keptMatches results).map (fun r => SourceRef.mk r.source r.page r.score)

/-- Models format_context_from_results of src/api_server.py lines 130 to
155: empty input returns the bare no-information string; otherwise the
matches with non-empty text and score above 0.3 are formatted with source
and page annotations and paired with the sources list (the pair with the
not-sufficiently-relevant message and no sources when all matches are
filtered out). -/
def format_context_from_results (results : List RetrievedMatch) : ContextResult :=
  if results.isEmpty then
    .bare "No relevant information found in the UDCPR document."
  else if (contextParts results).isEmpty then
    .pair "No sufficiently relevant information found in the UDCPR document." []
  else
    .pair (String.intercalate "\n" (contextParts results)) (sourceRefs results)

/-- Models the tuple unpacking at line 244 of src/api_server.py, namely
the statement context, sources = format_context_from_results(results)
inside the /chat endpoint: unpacking a pair binds its two components;
unpacking a bare string raises ValueError unless the string has exactly
two characters (and neither bare message has two characters, as proved
below), which the endpoint's except clause turns into an HTTP 500
internal error.  The failure is modelled as none. -/
def unpackContext : ContextResult → Option (String × List SourceRef)
  | .pair c s => some (c, s)
  | .bare _ => none

/-- System message of create_chat_prompt, src/api_server.py lines 162 to 184. -/
def system_message : String :=
  "You are UDCPR Saathi, an expert assistant for the Unified Development Control and Promotion Regulations (UDCPR) for Maharashtra State, India. You are knowledgeable, helpful, and confident in providing information about building regulations, zoning, FSI, and development control rules.\n\nIMPORTANT GUIDELINES:\n1. **Be Confident**: When the context contains relevant information, provide detailed answers confidently. Don't say \"the document doesn't provide information\" if there's relevant content.\n\n2. **Use Available Information**: Extract and synthesize information from the provided context. Even if it's not perfectly complete, provide what you know and build upon it with standard urban planning knowledge.\n\n3. **Structure Your Answers**: \n   - Start with a direct answer\n   - Provide specific details from UDCPR\n   - Use bullet points or numbered lists for clarity\n   - Include relevant regulations, measurements, and requirements\n\n4. **For Common Terms**: \n   - Green Zone: Areas for environmental conservation, parks, open spaces with restricted development\n   - Building Height: Provide specific UDCPR height limits based on road width, zoning, and area type\n   - FSI/FAR: Floor Space Index regulations as per UDCPR zones\n\n5. **Be Helpful**: If the exact information isn't in the context but you can infer from related UDCPR content, provide a helpful response and suggest consulting local authorities for specific cases.\n\n6. **Tone**: Professional, knowledgeable, and helpful. You're here to make UDCPR regulations accessible and understandable.\n\nRemember: You're an expert who knows UDCPR well. Be confident in your responses when you have relevant information."

/-- Models create_chat_prompt of src/api_server.py lines 157 to 198: the
fixed system turn, then (when the history is non-empty) the last
MAX_HISTORY_MESSAGES history turns in order, then the user turn with the
question and the retrieved context. -/
def create_chat_prompt (query context : String) (chat_history : List ChatMessage) :
    List ChatMessage :=
  let messages : List ChatMessage := [⟨"system", system_message⟩]
  let messages :=
    if chat_history.isEmpty then messages
    else messages ++ chat_history.drop (chat_history.length - MAX_HISTORY_MESSAGES)
  messages ++
    [⟨"user", "Question: " ++ query ++
      "\n\nRelevant sections from the UDCPR document:\n" ++ context⟩]

/-- Models the extend step of the session-history update of the /chat
endpoint, src/api_server.py lines 261 to 264 (the same
append-two-then-truncate sequence appears at src/chatbot_web.py lines
435 to 441 and src/udcpr_chatbot_streamlit.py lines 342 to 348 on the
in-memory history). -/
def extendTurns (history : List ChatMessage) (userMsg assistantMsg : String) :
    List ChatMessage :=
  history ++ [⟨"user", userMsg⟩, ⟨"assistant", assistantMsg⟩]

/-- Models the truncation guard of src/api_server.py lines 267 to 268:
when the history exceeds MAX_HISTORY_MESSAGES, keep its last
MAX_HISTORY_MESSAGES entries (the Python slice h[-MAX:]). -/
def truncateHistory (h : List ChatMessage) : List ChatMessage :=
  if h.length > MAX_HISTORY_MESSAGES then h.drop (h.length - MAX_HISTORY_MESSAGES)
  else h

/-- One full history update of the /chat endpoint: extend with the user
and assistant turns (src/api_server.py lines 261 to 264), then truncate. -/
def appendTurns (history : List ChatMessage) (userMsg assistantMsg : String) :
    List ChatMessage :=
  truncateHistory (extendTurns history userMsg assistantMsg)

end ApiServer

namespace StreamlitApp

/-- System message of create_chat_prompt, src/udcpr_chatbot_streamlit.py
lines 264 to 276. -/
def system_message : String :=
  "You are an expert assistant for the Unified Development Control and Promotion Regulations (UDCPR) for Maharashtra State, India. \nYour task is to provide accurate, helpful information about building regulations, zoning requirements, and development control rules based on the UDCPR document.\n\nWhen answering:\n1. Base your answers primarily on the provided context from the UDCPR document\n2. If the context contains the information, provide detailed, accurate answers\n3. If the context doesn't contain enough information, acknowledge the limitations\n4. Be concise but thorough\n5. Use bullet points or numbered lists for clarity when appropriate\n6. If asked about something outside the scope of UDCPR, politely explain that you're focused on UDCPR regulations\n7. If web search results are provided, you may use them to supplement your answer, but clearly indicate when information comes from external sources\n\nRemember, your goal is to help users understand and navigate the UDCPR regulations accurately."

/-- Models the user-message construction of create_chat_prompt in
src/udcpr_chatbot_streamlit.py lines 287 to 292: the question, the
retrieved-context block and, when the web-search context is present and
non-empty (Python truthiness), the additional-information block. -/
def userContent (query context : String) (web_search_context : Option String) : String :=
  let userMessage := "Question: " ++ query ++
    "\n\nRelevant sections from the UDCPR document:\n" ++ context
  match web_search_context with
  | some w =>
    if w != "" then userMessage ++ "\n\nAdditional information from web search:\n" ++ w
    else userMessage
  | none => userMessage

/-- Models create_chat_prompt of src/udcpr_chatbot_streamlit.py lines 259
to 295 (the four-argument prompt assembler also called by the
chatbot_web.py and chat_handler.py chat handlers): the fixed system turn,
then (when the history is non-empty) the last MAX_HISTORY_MESSAGES
history turns in order, then the user turn carrying the question, the
retrieved-context block and, when a web search ran and produced a
non-empty context string, the additional-information block.  The Python
truthiness test if web_search_context is modelled as the none-or-empty
test on the option. -/
def create_chat_prompt (query context : String) (web_search_context : Option String)
    (chat_history : List ChatMessage) : List ChatMessage :=
  let messages : List ChatMessage := [⟨"system", system_message⟩]
  let messages :=
    if chat_history.isEmpty then messages
    else messages ++ chat_history.drop (chat_history.length - MAX_HISTORY_MESSAGES)
  messages ++ [⟨"user", userContent query context web_search_context⟩]

end StreamlitApp

namespace ChatbotWeb

/-- Models the web-search arm of the chat handler of src/chatbot_web.py
lines 386 to 397: when the decision finds the retrieved context
insufficient, perform_web_search runs with num_results = 3 and a
non-empty result list is formatted into the web context string; otherwise
no web context exists. -/
def webSearchContext (prompt : String) (results : List RetrievedMatch)
    (net : WebSearch.NetOutcome) : Option String :=
  if has_relevant_results prompt results then none
  else
    let webResults := WebSearch.perform_web_search prompt 3 net
    if webResults.isEmpty then none
    else some (WebSearch.format_search_results_for_context webResults)

end ChatbotWeb

/-- Query of the end-to-end weather scenario of the spec (section 8). -/
def c2Query : String := "what is the temperature in Austin right now"

/-- Weather scenario query that also names texas, which the nested
Texas-city branching of src/web_search.py line 219 requires before any
city is recognised. -/
def c2QueryTexas : String := "what is the temperature in Austin Texas right now"

/-- Network outcome with zero responding engines and a successful direct
request: the synthetic knowledge base is consulted. -/
def c2Net : WebSearch.NetOutcome := ⟨[], true⟩

/-! Helper lemmas shared by the claim theorems. -/

theorem mem_udcprRecent_title (q : String) (b : WebSearch.WebResult)
    (hb : b ∈ WebSearch.udcprRecentResults q) :
    b.title = "Recent UDCPR Amendments and Updates" := by
  unfold WebSearch.udcprRecentResults at hb
  split at hb
  · simp only [List.mem_singleton] at hb; subst hb; rfl
  · simp at hb

theorem udcprDetail_title_ne (q t : String)
    (ht : t ∈ (["Maharashtra Urban Development Department - Official Website",
      "Recent UDCPR Amendments and Updates"] : List String)) :
    t ≠ (WebSearch.udcprDetailResult q).title := by
  unfold WebSearch.udcprDetailResult
  simp only [List.mem_cons, List.mem_singleton] at ht
  rcases ht with h | h | h
  · subst h
    repeat' split
    all_goals decide
  · subst h
    repeat' split
    all_goals decide
  · simp at h

theorem udcprResults_titles (q : String) :
    (WebSearch.udcprResults q).Pairwise (fun a b => a.title ≠ b.title) := by
  unfold WebSearch.udcprResults
  refine List.Pairwise.cons ?_ (List.Pairwise.cons ?_ ?_)
  · intro b hb
    rcases List.mem_cons.mp hb with hb | hb
    · subst hb
      exact udcprDetail_title_ne q
        "Maharashtra Urban Development Department - Official Website" (by decide)
    · rw [mem_udcprRecent_title q b hb]; decide
  · intro b hb
    rw [mem_udcprRecent_title q b hb]
    exact Ne.symm (udcprDetail_title_ne q "Recent UDCPR Amendments and Updates" (by decide))
  · unfold WebSearch.udcprRecentResults
    split <;> simp

theorem mkWeatherPair_titles (location link s c w : String)
    (h : ("Current Weather in " ++ location) ≠ ("Weather Forecast for " ++ location)) :
    (WebSearch.mkWeatherPair location link s c w).Pairwise (fun a b => a.title ≠ b.title) := by
  unfold WebSearch.mkWeatherPair
  refine List.Pairwise.cons ?_ (List.pairwise_singleton _ _)
  intro b hb
  simp only [List.mem_singleton] at hb
  subst hb
  exact h

theorem weatherResults_titles (q : String) :
    (WebSearch.weatherResults q).Pairwise (fun a b => a.title ≠ b.title) := by
  unfold WebSearch.weatherResults
  repeat' split
  all_goals (apply mkWeatherPair_titles; decide)

theorem addEngineResults_pairwise (n : Nat) (e : String × List WebSearch.RawItem)
    (acc : List WebSearch.WebResult)
    (h : acc.Pairwise (fun a b => a.title ≠ b.title)) :
    (WebSearch.addEngineResults n acc e).Pairwise (fun a b => a.title ≠ b.title) := by
  unfold WebSearch.addEngineResults
  generalize e.2.take n = items
  induction items generalizing acc with
  | nil => simpa using h
  | cons it its ih =>
    rw [List.foldl_cons]
    apply ih
    split
    · next hc =>
      simp only [Bool.and_eq_true, bne_iff_ne, ne_eq, Bool.not_eq_true'] at hc
      obtain ⟨⟨-, -⟩, hany⟩ := hc
      rw [List.pairwise_append]
      refine ⟨h, List.pairwise_singleton _ _, ?_⟩
      intro a ha b hb
      simp only [List.mem_singleton] at hb
      subst hb
      have := List.any_eq_false.mp hany a ha
      simpa using this
    · exact h

theorem foldl_addEngine_pairwise (n : Nat) (engines : List (String × List WebSearch.RawItem))
    (acc : List WebSearch.WebResult) (h : acc.Pairwise (fun a b => a.title ≠ b.title)) :
    (engines.foldl (WebSearch.addEngineResults n) acc).Pairwise (fun a b => a.title ≠ b.title) := by
  induction engines generalizing acc with
  | nil => simpa using h
  | cons e es ih =>
    rw [List.foldl_cons]
    exact ih _ (addEngineResults_pairwise n e acc h)

theorem aggregateEngines_pairwise (engines : List (String × List WebSearch.RawItem)) (n : Nat) :
    (WebSearch.aggregateEngines engines n).Pairwise (fun a b => a.title ≠ b.title) :=
  foldl_addEngine_pairwise n engines [] List.Pairwise.nil

theorem truncate_eq_drop (h : List ChatMessage) :
    ApiServer.truncateHistory h = h.drop (h.length - MAX_HISTORY_MESSAGES) := by
  unfold ApiServer.truncateHistory
  split
  · rfl
  · next hle =>
    have h0 : h.length - MAX_HISTORY_MESSAGES = 0 := by omega
    rw [h0, List.drop_zero]

theorem promptProps (sys user : ChatMessage) (history : List ChatMessage) :
    (((if history.isEmpty then [sys]
       else [sys] ++ history.drop (history.length - MAX_HISTORY_MESSAGES)) ++ [user]).length
        = 1 + min history.length MAX_HISTORY_MESSAGES + 1) ∧
    (((if history.isEmpty then [sys]
       else [sys] ++ history.drop (history.length - MAX_HISTORY_MESSAGES)) ++ [user]).head?
        = some sys) ∧
    ((((if history.isEmpty then [sys]
       else [sys] ++ history.drop (history.length - MAX_HISTORY_MESSAGES)) ++ [user]).drop 1).take
        (min history.length MAX_HISTORY_MESSAGES)
        = history.drop (history.length - MAX_HISTORY_MESSAGES)) := by
  by_cases hE : history.isEmpty
  · have h0 : history = [] := by simpa [List.isEmpty_iff] using hE
    subst h0
    refine ⟨by simp, by simp, by simp⟩
  · rw [if_neg hE]
    have hlen : (history.drop (history.length - MAX_HISTORY_MESSAGES)).length
        = min history.length MAX_HISTORY_MESSAGES := by
      rw [List.length_drop]
      unfold MAX_HISTORY_MESSAGES
      omega
    refine ⟨?_, ?_, ?_⟩
    · simp [hlen]
      omega
    · simp
    · have hdrop : ((([sys] ++ history.drop (history.length - MAX_HISTORY_MESSAGES)) ++ [user]).drop 1)
          = history.drop (history.length - MAX_HISTORY_MESSAGES) ++ [user] := by
        simp
      rw [hdrop, ← hlen, List.take_left]

/-! The claim theorems. -/

/-- Claim C1: for every query whose lowercased text contains the phrase
"most recent" and every list of retrieved matches (including matches that
all score 0.99), both relevance-classifier call sites decide
sufficiency = false, so web search is triggered: the force-web-search
phrase override takes precedence over the score-threshold rule. -/
theorem force_phrase_most_recent_yields_insufficient (q : String)
    (results : List RetrievedMatch)
    (h : containsSub "most recent" (lowerStr q) = true) :
    ChatHandler.has_relevant_results q results = false ∧
    ChatbotWeb.has_relevant_results q results = false := by
  have hch : ChatHandler.force_web_search q = true := by
    show ChatHandler.force_web_search_phrases.any (fun p => containsSub p (lowerStr q)) = true
    rw [List.any_eq_true]
    exact ⟨"most recent", by decide, h⟩
  have hcw : ChatbotWeb.force_web_search q = true := by
    show ChatbotWeb.force_web_search_phrases.any (fun p => containsSub p (lowerStr q)) = true
    rw [List.any_eq_true]
    exact ⟨"most recent", by decide, h⟩
  refine ⟨?_, ?_⟩
  · simp [ChatHandler.has_relevant_results, hch]
  · simp [ChatbotWeb.has_relevant_results, hcw]

/-- Witness for claim C1: the theorem applied to a concrete query
containing "most recent" and a single match scoring 0.99. -/
theorem force_phrase_most_recent_yields_insufficient_witness :
    containsSub "most recent" (lowerStr "What are the most recent UDCPR amendments?") = true ∧
    ChatHandler.has_relevant_results "What are the most recent UDCPR amendments?"
      [⟨0.99, "FSI rules", "UDCPR.pdf", "12"⟩] = false ∧
    ChatbotWeb.has_relevant_results "What are the most recent UDCPR amendments?"
      [⟨0.99, "FSI rules", "UDCPR.pdf", "12"⟩] = false :=
  ⟨by decide,
   (force_phrase_most_recent_yields_insufficient _
     [⟨0.99, "FSI rules", "UDCPR.pdf", "12"⟩] (by decide)).1,
   (force_phrase_most_recent_yields_insufficient _
     [⟨0.99, "FSI rules", "UDCPR.pdf", "12"⟩] (by decide)).2⟩

/-- Claim C2, counterexample: for the exact query "what is the
temperature in Austin right now" the weather override fires, but the
synthetic fallback results carry no "82-97°F (28-36°C)" temperature
range in any field, because the Austin branch of the synthetic knowledge
base is nested inside the texas branch and the query never mentions
texas: the returned snippet reads "varies by region" instead. -/
theorem austin_query_without_texas_misses_austin_range :
    ChatbotWeb.has_relevant_results c2Query [] = false ∧
    (WebSearch.perform_web_search c2Query 3 c2Net).all
      (fun r => !(containsSub "82-97°F (28-36°C)" r.title ||
        containsSub "82-97°F (28-36°C)" r.snippet ||
        containsSub "82-97°F (28-36°C)" r.link)) = true :=
  ⟨by decide, by decide⟩

/-- Claim C2 as amended: for the query "what is the temperature in
Austin Texas right now" (the Austin data is reachable only when the
query also mentions texas), the classifier decides sufficiency = false
via the weather override, the web-search fallback is invoked and its
synthetic result carries the range "82-97°F (28-36°C)", and the final
assembled prompt ends with a user turn that includes the web-context
block. -/
theorem austin_texas_weather_scenario_end_to_end :
    ChatbotWeb.has_relevant_results c2QueryTexas [] = false ∧
    (WebSearch.perform_web_search c2QueryTexas 3 c2Net).any
      (fun r => containsSub "82-97°F (28-36°C)" r.snippet) = true ∧
    ChatbotWeb.webSearchContext c2QueryTexas [] c2Net
      = some (WebSearch.format_search_results_for_context
          (WebSearch.perform_web_search c2QueryTexas 3 c2Net)) ∧
    (StreamlitApp.create_chat_prompt c2QueryTexas
        "No relevant information found in the UDCPR document."
        (ChatbotWeb.webSearchContext c2QueryTexas [] c2Net) []).getLast?
      = some ⟨"user", "Question: " ++ c2QueryTexas ++
          "\n\nRelevant sections from the UDCPR document:\nNo relevant information found in the UDCPR document." ++
          "\n\nAdditional information from web search:\n" ++
          WebSearch.format_search_results_for_context
            (WebSearch.perform_web_search c2QueryTexas 3 c2Net)⟩ := by
  refine ⟨by decide, by decide, by rfl, by rfl⟩

/-- Claim C3, counterexample: a backend that responds with a result is
still never reflected in the return value; the function returns the
synthetic set even though the aggregation is non-empty, so the claim
that aggregated backend results are returned when they exist is false. -/
theorem backend_results_never_returned :
    WebSearch.aggregateEngines
      [("DuckDuckGo", [⟨"Example Result", "https://example.com", "an example snippet"⟩])] 3 ≠ [] ∧
    (WebSearch.perform_web_search "anything" 3
        ⟨[("DuckDuckGo", [⟨"Example Result", "https://example.com", "an example snippet"⟩])],
         true⟩).all
      (fun r => r.title != "Example Result") = true :=
  ⟨by decide, by decide⟩

/-- Claim C3 as amended: the engine loop aggregates deduplicated-by-title
results across all responding backends without stopping at the first
success, but the fallback section then rebinds the result list
unconditionally, so the function returns the synthetic results regardless
of what the backends produced: its value never depends on the engine
outcomes. -/
theorem aggregation_deduplicates_but_is_discarded (q : String) (n : Nat)
    (engines : List (String × List WebSearch.RawItem)) (d : Bool) :
    WebSearch.perform_web_search q n ⟨engines, d⟩ = WebSearch.perform_web_search q n ⟨[], d⟩ ∧
    (WebSearch.aggregateEngines engines n).Pairwise (fun a b => a.title ≠ b.title) :=
  ⟨rfl, aggregateEngines_pairwise engines n⟩

/-- Claim C4: for the query "hi" (trimmed length 2) and the empty match
list, both relevance-classifier call sites decide sufficiency = true, the
greeting short-circuit applying despite the absence of retrieval results. -/
theorem greeting_hi_with_no_matches_sufficient :
    ChatHandler.has_relevant_results "hi" [] = true ∧
    ChatbotWeb.has_relevant_results "hi" [] = true :=
  ⟨by decide, by decide⟩

/-- Claim C5: after any append of a user and an assistant turn followed
by the truncation step, the history has length at most
MAX_HISTORY_MESSAGES, and it is exactly the most recent entries of the
pre-truncation sequence in their original order: the drop of the
pre-truncation sequence at its oldest end, hence a suffix of it. -/
theorem history_append_truncates_to_most_recent (history : List ChatMessage) (u a : String) :
    (ApiServer.appendTurns history u a).length ≤ MAX_HISTORY_MESSAGES ∧
    ApiServer.appendTurns history u a
      = (ApiServer.extendTurns history u a).drop
          ((history.length + 2) - MAX_HISTORY_MESSAGES) ∧
    ApiServer.appendTurns history u a <:+ ApiServer.extendTurns history u a := by
  have hlen : (ApiServer.extendTurns history u a).length = history.length + 2 := by
    unfold ApiServer.extendTurns
    simp
  have key : ApiServer.appendTurns history u a
      = (ApiServer.extendTurns history u a).drop
          ((history.length + 2) - MAX_HISTORY_MESSAGES) := by
    unfold ApiServer.appendTurns
    rw [truncate_eq_drop, hlen]
  refine ⟨?_, key, key ▸ List.drop_suffix _ _⟩
  rw [key, List.length_drop, hlen]
  unfold MAX_HISTORY_MESSAGES
  omega

/-- Claim C6: for every query, context string, optional web-context
string and history, both prompt assemblers return a turn list whose
first element is the fixed system turn and whose length is
1 + min(history length, MAX_HISTORY_MESSAGES) + 1, independent of the
retrieval and web content; the included history turns are exactly the
most recent MAX_HISTORY_MESSAGES, a suffix of the history in original
order. -/
theorem assembled_prompt_bounded_shape (query context : String) (w : Option String)
    (history : List ChatMessage) :
    (ApiServer.create_chat_prompt query context history).length
      = 1 + min history.length MAX_HISTORY_MESSAGES + 1 ∧
    (ApiServer.create_chat_prompt query context history).head?
      = some ⟨"system", ApiServer.system_message⟩ ∧
    ((ApiServer.create_chat_prompt query context history).drop 1).take
        (min history.length MAX_HISTORY_MESSAGES)
      = history.drop (history.length - MAX_HISTORY_MESSAGES) ∧
    (StreamlitApp.create_chat_prompt query context w history).length
      = 1 + min history.length MAX_HISTORY_MESSAGES + 1 ∧
    (StreamlitApp.create_chat_prompt query context w history).head?
      = some ⟨"system", StreamlitApp.system_message⟩ ∧
    ((StreamlitApp.create_chat_prompt query context w history).drop 1).take
        (min history.length MAX_HISTORY_MESSAGES)
      = history.drop (history.length - MAX_HISTORY_MESSAGES) ∧
    history.drop (history.length - MAX_HISTORY_MESSAGES) <:+ history := by
  have e1 : ApiServer.create_chat_prompt query context history
      = (if history.isEmpty then [(⟨"system", ApiServer.system_message⟩ : ChatMessage)]
         else [⟨"system", ApiServer.system_message⟩] ++
           history.drop (history.length - MAX_HISTORY_MESSAGES)) ++
        [⟨"user", "Question: " ++ query ++
          "\n\nRelevant sections from the UDCPR document:\n" ++ context⟩] := rfl
  have e2 : StreamlitApp.create_chat_prompt query context w history
      = (if history.isEmpty then [(⟨"system", StreamlitApp.system_message⟩ : ChatMessage)]
         else [⟨"system", StreamlitApp.system_message⟩] ++
           history.drop (history.length - MAX_HISTORY_MESSAGES)) ++
        [⟨"user", StreamlitApp.userContent query context w⟩] := rfl
  obtain ⟨a1, a2, a3⟩ := promptProps ⟨"system", ApiServer.system_message⟩
    ⟨"user", "Question: " ++ query ++
      "\n\nRelevant sections from the UDCPR document:\n" ++ context⟩ history
  obtain ⟨b1, b2, b3⟩ := promptProps ⟨"system", StreamlitApp.system_message⟩
    ⟨"user", StreamlitApp.userContent query context w⟩ history
  rw [e1, e2]
  exact ⟨a1, a2, a3, b1, b2, b3, List.drop_suffix _ _⟩

/-- Claim C7: for every query and every network outcome, including the
one in which every engine fails and the direct request fails too,
perform_web_search returns a non-empty result list: every failure path
ends in a synthetic fallback record. -/
theorem web_search_always_returns_nonempty (q : String) (n : Nat)
    (net : WebSearch.NetOutcome) :
    WebSearch.perform_web_search q n net ≠ [] := by
  obtain ⟨engines, d⟩ := net
  have he : WebSearch.perform_web_search q n ⟨engines, d⟩
      = WebSearch.fallbackResults (WebSearch.rewriteQuery q) d := rfl
  rw [he]
  generalize WebSearch.rewriteQuery q = p
  unfold WebSearch.fallbackResults
  cases d
  · simp
  · rw [if_pos rfl]
    split
    · unfold WebSearch.weatherResults WebSearch.mkWeatherPair
      repeat' split
      all_goals simp
    · split
      · simp [WebSearch.udcprResults]
      · simp

/-- Claim C8: for every query and every outcome of the search backends,
the list returned by perform_web_search never holds two entries with the
same title. -/
theorem web_search_results_have_distinct_titles (q : String) (n : Nat)
    (net : WebSearch.NetOutcome) :
    (WebSearch.perform_web_search q n net).Pairwise (fun a b => a.title ≠ b.title) := by
  obtain ⟨engines, d⟩ := net
  have he : WebSearch.perform_web_search q n ⟨engines, d⟩
      = WebSearch.fallbackResults (WebSearch.rewriteQuery q) d := rfl
  rw [he]
  generalize WebSearch.rewriteQuery q = p
  unfold WebSearch.fallbackResults
  cases d
  · exact List.pairwise_singleton _ _
  · rw [if_pos rfl]
    split
    · exact weatherResults_titles p
    · split
      · exact udcprResults_titles p
      · exact List.pairwise_singleton _ _

/-- Claim C9: format_context_from_results of the API server returns a
(context, sources) pair for every non-empty match list but a bare string
for the empty list; the bare message does not have the two characters a
two-target unpacking would need, so the unpacking step of the /chat
endpoint fails on it, which the endpoint surfaces as an internal error. -/
theorem empty_retrieval_returns_bare_string_breaking_unpack
    (results : List RetrievedMatch) (h : results ≠ []) :
    (∃ c s, ApiServer.format_context_from_results results = ApiServer.ContextResult.pair c s) ∧
    ApiServer.format_context_from_results []
      = ApiServer.ContextResult.bare "No relevant information found in the UDCPR document." ∧
    ("No relevant information found in the UDCPR document." : String).length ≠ 2 ∧
    ApiServer.unpackContext (ApiServer.format_context_from_results []) = none := by
  refine ⟨?_, rfl, by decide, rfl⟩
  unfold ApiServer.format_context_from_results
  rw [if_neg (by simpa [List.isEmpty_iff] using h)]
  split
  · exact ⟨_, _, rfl⟩
  · exact ⟨_, _, rfl⟩

/-- Witness for claim C9: the theorem applied to a concrete single-match
list. -/
theorem empty_retrieval_returns_bare_string_breaking_unpack_witness :
    (∃ c s, ApiServer.format_context_from_results
        [⟨0.9, "FSI provisions text", "UDCPR.pdf", "12"⟩]
      = ApiServer.ContextResult.pair c s) ∧
    ApiServer.format_context_from_results []
      = ApiServer.ContextResult.bare "No relevant information found in the UDCPR document." ∧
    ("No relevant information found in the UDCPR document." : String).length ≠ 2 ∧
    ApiServer.unpackContext (ApiServer.format_context_from_results []) = none :=
  empty_retrieval_returns_bare_string_breaking_unpack
    [⟨0.9, "FSI provisions text", "UDCPR.pdf", "12"⟩] (by simp)

/-- Claim C10: greeting detection is substring-based, not word-based. For
every query whose lowercased text contains "hi" anywhere, under no force
phrase (and, for the chatbot_web path, none of its higher-precedence
overrides: weather, non-domain query), both call sites treat the query as
a greeting and decide sufficiency = true regardless of retrieval scores
and match count. -/
theorem substring_greeting_overrides_scores (q : String) (results : List RetrievedMatch)
    (hhi : containsSub "hi" (lowerStr q) = true)
    (h1 : ChatHandler.force_web_search q = false)
    (h2 : ChatbotWeb.weather_override q = false)
    (h3 : ChatbotWeb.force_web_search q = false)
    (h4 : ChatbotWeb.is_non_udcpr_query q = false) :
    ChatHandler.has_relevant_results q results = true ∧
    ChatbotWeb.has_relevant_results q results = true := by
  have hg1 : ChatHandler.is_greeting q = true := by
    show ChatHandler.greeting_patterns.any (fun p => containsSub p (lowerStr q)) = true
    rw [List.any_eq_true]
    exact ⟨"hi", by decide, hhi⟩
  have hg2 : ChatbotWeb.is_greeting q = true := by
    show ChatbotWeb.greeting_patterns.any (fun p => containsSub p (lowerStr q)) = true
    rw [List.any_eq_true]
    exact ⟨"hi", by decide, hhi⟩
  refine ⟨?_, ?_⟩
  · simp [ChatHandler.has_relevant_results, h1, hg1]
  · simp [ChatbotWeb.has_relevant_results, h2, h3, h4, hg2]

/-- Witness for claim C10: the word "third" contains "hi", triggers no
override, and is classified as a greeting at both call sites even with a
0.99-scoring match present. -/
theorem substring_greeting_overrides_scores_witness :
    containsSub "hi" (lowerStr "third") = true ∧
    ChatHandler.has_relevant_results "third" [⟨0.99, "text", "src", "1"⟩] = true ∧
    ChatbotWeb.has_relevant_results "third" [⟨0.99, "text", "src", "1"⟩] = true :=
  ⟨by decide,
   (substring_greeting_overrides_scores "third" [⟨0.99, "text", "src", "1"⟩]
     (by decide) (by decide) (by decide) (by decide) (by decide)).1,
   (substring_greeting_overrides_scores "third" [⟨0.99, "text", "src", "1"⟩]
     (by decide) (by decide) (by decide) (by decide) (by decide)).2⟩
